import Mathlib

/-!
Verification of the `pix2text_bridge.py` command-line bridge.

The script is glue code around an external OCR engine: it reads an image
from the clipboard or from a file, loads a configuration file with a
hardcoded fallback, invokes the engine, and prints a single JSON object.
We embed it shallowly: every interaction with the outside world
(clipboard, file system, configuration file, engine) is a field of an
environment record `Env`, and each Python function becomes a Lean
function over that environment.  Engine construction and invocation are
recorded in an event trace so that claims of the form "the engine is
never constructed" can be stated.
-/

namespace Pix2TextBridge

/-- Abstract in-memory bitmap (`PIL` image object); only its identity matters. -/
abbrev Img := Nat

/-- Abstract engine object returned by `Pix2Text.from_config`. -/
abbrev Engine := Nat

/-- Opaque keyword-argument mapping splatted into `Pix2Text.from_config`. -/
abbrev EngineOpts := List (String × Nat)

/-- The parsed configuration mapping, restricted to the two keys the script
reads: `pix2text` (engine options) and `text_formula_resized_shape`.
A key absent from the YAML mapping is `none`. -/
structure Config where
  pix2text : Option EngineOpts
  text_formula_resized_shape : Option Nat
deriving DecidableEq, Repr

/-- JSON scalar values appearing in the result objects built by the script. -/
inductive JsonVal where
  | bool (b : Bool)
  | str (s : String)
deriving DecidableEq, Repr

/-- A result dictionary, as an ordered association list of JSON fields,
exactly as the Python dict literals build it. -/
abbrev Result := List (String × JsonVal)

/-- The dict literal written as an error object in the script. -/
def errorResult (msg : String) : Result :=
  [("error", JsonVal.str msg)]

/-- The dict literal written on the success path. -/
def successResult (latex : String) : Result :=
  [("success", JsonVal.bool true), ("latex", JsonVal.str latex)]

/-- One call into the external engine: constructing it, or invoking its
text/formula recognition entry point with an image, a resized-shape
parameter and the `return_text` flag. -/
inductive EngineEvent where
  | construct (opts : EngineOpts)
  | recognize (p2t : Engine) (image : Img) (resized_shape : Nat) (return_text : Bool)
deriving DecidableEq, Repr

/-- The outside world as the script observes it in one invocation.
Each fallible external call yields either a value or the message of the
exception it raises. -/
structure Env where
  /-- `ImageGrab.grabclipboard()`: an exception, no image, or an image. -/
  grabclipboard : Except String (Option Img)
  /-- `Image.open(path)`. -/
  imageOpen : String → Except String Img
  /-- Opening and `yaml.safe_load`-parsing `config.yaml` beside the script. -/
  readConfigYaml : Except String Config
  /-- `Pix2Text.from_config(**opts)`. -/
  from_config : EngineOpts → Except String Engine
  /-- `p2t.recognize_text_formula(image, resized_shape=..., return_text=...)`. -/
  recognize_text_formula : Engine → Img → Nat → Bool → Except String String

/-- `load_config`: read `config.yaml`; on any exception return the
hardcoded default dict. -/
def load_config (env : Env) : Config :=
  match env.readConfigYaml with
  | Except.ok c => c
  | Except.error _ => { pix2text := some [], text_formula_resized_shape := some 608 }

/-- `process_clipboard_image`: grab the clipboard image, build the engine
from the `pix2text` sub-mapping of the configuration, recognize, and wrap
the outcome; every exception becomes an error result.  The second
component records the engine calls attempted. -/
def process_clipboard_image (env : Env) : Result × List EngineEvent :=
  match env.grabclipboard with
  | Except.error e => (errorResult e, [])
  | Except.ok none => (errorResult "No image found in clipboard", [])
  | Except.ok (some image) =>
      let config := load_config env
      match env.from_config (config.pix2text.getD []) with
      | Except.error e => (errorResult e, [EngineEvent.construct (config.pix2text.getD [])])
      | Except.ok p2t =>
          let resized_shape := config.text_formula_resized_shape.getD 608
          match env.recognize_text_formula p2t image resized_shape true with
          | Except.error e =>
              (errorResult e,
               [EngineEvent.construct (config.pix2text.getD []),
                EngineEvent.recognize p2t image resized_shape true])
          | Except.ok latex_result =>
              (successResult latex_result,
               [EngineEvent.construct (config.pix2text.getD []),
                EngineEvent.recognize p2t image resized_shape true])

/-- `process_image_file`: open the image at the given path, then proceed
exactly as the clipboard variant does. -/
def process_image_file (env : Env) (image_path : String) : Result × List EngineEvent :=
  match env.imageOpen image_path with
  | Except.error e => (errorResult e, [])
  | Except.ok image =>
      let config := load_config env
      match env.from_config (config.pix2text.getD []) with
      | Except.error e => (errorResult e, [EngineEvent.construct (config.pix2text.getD [])])
      | Except.ok p2t =>
          let resized_shape := config.text_formula_resized_shape.getD 608
          match env.recognize_text_formula p2t image resized_shape true with
          | Except.error e =>
              (errorResult e,
               [EngineEvent.construct (config.pix2text.getD []),
                EngineEvent.recognize p2t image resized_shape true])
          | Except.ok latex_result =>
              (successResult latex_result,
               [EngineEvent.construct (config.pix2text.getD []),
                EngineEvent.recognize p2t image resized_shape true])

/-- Observable outcome of one run of `main`: the JSON objects printed to
standard output in order, the process exit code, and the engine calls. -/
structure MainOutcome where
  printed : List Result
  exitCode : Nat
  events : List EngineEvent
deriving DecidableEq, Repr

/-- `main`: dispatch on `sys.argv` (element 0 is the program name).
Fewer than two elements prints a "No command specified" error and exits 1;
otherwise the command is dispatched, its result printed, and the process
exits 0. -/
def main (env : Env) (argv : List String) : MainOutcome :=
  match argv with
  | [] => { printed := [errorResult "No command specified"], exitCode := 1, events := [] }
  | [_] => { printed := [errorResult "No command specified"], exitCode := 1, events := [] }
  | _ :: command :: rest =>
      let re :=
        if command = "clipboard" then
          process_clipboard_image env
        else
          match command, rest with
          | "file", image_path :: _ => process_image_file env image_path
          | _, _ => (errorResult ("Unknown command: " ++ command), [])
      { printed := [re.1], exitCode := 0, events := re.2 }

/-! ### Concrete environments used as witnesses and counterexamples -/

/-- A world where grabbing the clipboard itself raises. -/
def envGrabErr : Env where
  grabclipboard := Except.error "clipboard access failed"
  imageOpen := fun _ => Except.error "unused"
  readConfigYaml := Except.error "config missing"
  from_config := fun _ => Except.ok 0
  recognize_text_formula := fun _ _ _ _ => Except.ok "x"

/-- A world where opening any image file raises a file-not-found error. -/
def envOpenErr : Env where
  grabclipboard := Except.ok none
  imageOpen := fun _ =>
    Except.error "[Errno 2] No such file or directory: 'missing.png'"
  readConfigYaml := Except.error "config missing"
  from_config := fun _ => Except.ok 0
  recognize_text_formula := fun _ _ _ _ => Except.ok "x"

/-- A world where engine construction raises. -/
def envCtorErr : Env where
  grabclipboard := Except.ok (some 1)
  imageOpen := fun _ => Except.ok 1
  readConfigYaml := Except.error "config missing"
  from_config := fun _ => Except.error "engine initialization failed"
  recognize_text_formula := fun _ _ _ _ => Except.ok "x"

/-- A world where the recognition call raises. -/
def envRecErr : Env where
  grabclipboard := Except.ok (some 2)
  imageOpen := fun _ => Except.ok 2
  readConfigYaml := Except.error "config missing"
  from_config := fun _ => Except.ok 7
  recognize_text_formula := fun _ _ _ _ => Except.error "inference failed"

/-- A world where the clipboard holds no image. -/
def envNoClip : Env where
  grabclipboard := Except.ok none
  imageOpen := fun _ => Except.ok 0
  readConfigYaml := Except.error "config missing"
  from_config := fun _ => Except.ok 0
  recognize_text_formula := fun _ _ _ _ => Except.ok "x"

/-- A fully successful world with an explicit configuration file. -/
def envOk : Env where
  grabclipboard := Except.ok (some 3)
  imageOpen := fun _ => Except.ok 3
  readConfigYaml :=
    Except.ok { pix2text := some [("model_backend", 1)],
                text_formula_resized_shape := some 768 }
  from_config := fun _ => Except.ok 5
  recognize_text_formula := fun _ _ _ _ => Except.ok "E=mc^2"

/-- A successful world in which the engine returns the empty string. -/
def envEmptyLatex : Env where
  grabclipboard := Except.ok (some 4)
  imageOpen := fun _ => Except.ok 4
  readConfigYaml := Except.error "config missing"
  from_config := fun _ => Except.ok 9
  recognize_text_formula := fun _ _ _ _ => Except.ok ""

/-! ### Claims -/

/-- C2: for every argument vector — any command, any outcome, including the
no-command case — one invocation of `main` prints exactly one JSON object
to standard output, never zero and never more than one. -/
theorem main_prints_exactly_one_json (env : Env) (argv : List String) :
    (main env argv).printed.length = 1 := by
  match argv with
  | [] => rfl
  | [_] => rfl
  | _ :: _ :: _ => rfl

/-- C9: the exit code is 0 for every invocation that supplies a command
argument (whatever the outcome), and 1 exactly when no command argument is
supplied at all, i.e. when `sys.argv` has fewer than two elements. -/
theorem exit_code_policy (env : Env) (argv : List String) :
    (main env argv).exitCode = if argv.length < 2 then 1 else 0 := by
  match argv with
  | [] => rfl
  | [_] => rfl
  | _ :: _ :: _ => rfl

/-- C10: when the first argument is `file` but no path follows, the printed
result is exactly the error object with message `Unknown command: file` —
the missing path is reported with the unknown-command message — and the
engine is never constructed or invoked. -/
theorem file_without_path_unknown_command (env : Env) (prog : String) :
    main env [prog, "file"] =
      { printed := [errorResult "Unknown command: file"],
        exitCode := 0, events := [] } := by
  simp [main, errorResult]

/-- C4: when the `clipboard` command is given and the clipboard holds no
image, the result is exactly the error object with message
`No image found in clipboard`, and the engine is never constructed or
invoked. -/
theorem clipboard_no_image (env : Env) (prog : String) (rest : List String)
    (h : env.grabclipboard = Except.ok none) :
    main env (prog :: "clipboard" :: rest) =
      { printed := [errorResult "No image found in clipboard"],
        exitCode := 0, events := [] } := by
  simp [main, process_clipboard_image, h]

theorem clipboard_no_image_witness :
    envNoClip.grabclipboard = Except.ok none ∧
    main envNoClip ["pix2text_bridge.py", "clipboard"] =
      { printed := [errorResult "No image found in clipboard"],
        exitCode := 0, events := [] } :=
  ⟨rfl, clipboard_no_image envNoClip "pix2text_bridge.py" [] rfl⟩

/-- C5: for every first argument that is neither `clipboard` nor a
well-formed `file` invocation, the printed result is the error object
with message `Unknown command: ` followed by that argument, and the
engine is never constructed or invoked. -/
theorem unknown_command_error (env : Env) (prog command : String)
    (rest : List String)
    (h1 : command ≠ "clipboard") (h2 : command = "file" → rest = []) :
    main env (prog :: command :: rest) =
      { printed := [errorResult ("Unknown command: " ++ command)],
        exitCode := 0, events := [] } := by
  simp only [main, if_neg h1]
  split
  · exact absurd (h2 rfl) (List.cons_ne_nil _ _)
  · rfl

theorem unknown_command_error_witness :
    ("foo" : String) ≠ "clipboard" ∧
    main envNoClip ["pix2text_bridge.py", "foo"] =
      { printed := [errorResult ("Unknown command: " ++ "foo")],
        exitCode := 0, events := [] } :=
  ⟨by decide,
   unknown_command_error envNoClip "pix2text_bridge.py" "foo" []
     (by decide) (fun _ => rfl)⟩

/-- C1: every error raised during image acquisition or recognition is
caught — clipboard-grab failure, file-open failure (in particular the
`file` command on a nonexistent path), engine-construction failure and
recognition failure each produce an error object whose `error` field
holds exactly the exception message, and the process still prints its
one JSON object. -/
theorem errors_reported_as_json (envA envB envC envD : Env)
    (prog path eA eB eC eD : String) (imgC imgD : Img) (p2tD : Engine)
    (hA : envA.grabclipboard = Except.error eA)
    (hB : envB.imageOpen path = Except.error eB)
    (hC1 : envC.grabclipboard = Except.ok (some imgC))
    (hC2 : envC.from_config ((load_config envC).pix2text.getD []) =
      Except.error eC)
    (hD1 : envD.imageOpen path = Except.ok imgD)
    (hD2 : envD.from_config ((load_config envD).pix2text.getD []) =
      Except.ok p2tD)
    (hD3 : envD.recognize_text_formula p2tD imgD
      ((load_config envD).text_formula_resized_shape.getD 608) true =
      Except.error eD) :
    (main envA [prog, "clipboard"]).printed = [errorResult eA] ∧
    (main envB [prog, "file", path]).printed = [errorResult eB] ∧
    (process_clipboard_image envC).1 = errorResult eC ∧
    (process_image_file envD path).1 = errorResult eD ∧
    (errorResult eB).lookup "error" = some (JsonVal.str eB) := by
  refine ⟨?_, ?_, ?_, ?_, ?_⟩
  · simp [main, process_clipboard_image, hA]
  · simp [main, process_image_file, hB]
  · simp [process_clipboard_image, hC1, hC2]
  · simp [process_image_file, hD1, hD2, hD3]
  · simp [errorResult, List.lookup]

theorem errors_reported_as_json_witness :
    envGrabErr.grabclipboard = Except.error "clipboard access failed" ∧
    envOpenErr.imageOpen "missing.png" =
      Except.error "[Errno 2] No such file or directory: 'missing.png'" ∧
    envCtorErr.grabclipboard = Except.ok (some 1) ∧
    envCtorErr.from_config ((load_config envCtorErr).pix2text.getD []) =
      Except.error "engine initialization failed" ∧
    envRecErr.imageOpen "missing.png" = Except.ok 2 ∧
    envRecErr.from_config ((load_config envRecErr).pix2text.getD []) =
      Except.ok 7 ∧
    envRecErr.recognize_text_formula 7 2
      ((load_config envRecErr).text_formula_resized_shape.getD 608) true =
      Except.error "inference failed" ∧
    ((main envGrabErr ["pix2text_bridge.py", "clipboard"]).printed =
        [errorResult "clipboard access failed"] ∧
      (main envOpenErr ["pix2text_bridge.py", "file", "missing.png"]).printed =
        [errorResult "[Errno 2] No such file or directory: 'missing.png'"] ∧
      (process_clipboard_image envCtorErr).1 =
        errorResult "engine initialization failed" ∧
      (process_image_file envRecErr "missing.png").1 =
        errorResult "inference failed" ∧
      (errorResult
          "[Errno 2] No such file or directory: 'missing.png'").lookup "error" =
        some (JsonVal.str "[Errno 2] No such file or directory: 'missing.png'")) :=
  ⟨rfl, rfl, rfl, rfl, rfl, rfl, rfl,
   errors_reported_as_json envGrabErr envOpenErr envCtorErr envRecErr
     "pix2text_bridge.py" "missing.png"
     "clipboard access failed"
     "[Errno 2] No such file or directory: 'missing.png'"
     "engine initialization failed" "inference failed"
     1 2 7 rfl rfl rfl rfl rfl rfl rfl⟩

/-- The hardcoded default configuration returned by `load_config` on
failure. -/
def defaultConfig : Config :=
  { pix2text := some [], text_formula_resized_shape := some 608 }

/-- C6: when reading or parsing the configuration file fails, the run is
not aborted: `load_config` returns the hardcoded default mapping (empty
`pix2text` options, `text_formula_resized_shape` 608), and both
processing paths behave exactly as they would with that default
configuration read successfully — the configuration error is never
surfaced. -/
theorem config_failure_falls_back_to_defaults (env : Env)
    (e path : String)
    (h : env.readConfigYaml = Except.error e) :
    load_config env = defaultConfig ∧
    process_clipboard_image env =
      process_clipboard_image
        { env with readConfigYaml := Except.ok defaultConfig } ∧
    process_image_file env path =
      process_image_file
        { env with readConfigYaml := Except.ok defaultConfig } path := by
  obtain ⟨gc, io, rc, fc, rt⟩ := env
  cases h
  exact ⟨rfl, rfl, rfl⟩

theorem config_failure_falls_back_to_defaults_witness :
    envEmptyLatex.readConfigYaml = Except.error "config missing" ∧
    load_config envEmptyLatex = defaultConfig :=
  ⟨rfl,
   (config_failure_falls_back_to_defaults envEmptyLatex
     "config missing" "a.png" rfl).1⟩

/-- C3 counterexample: in a world whose engine returns the empty string
on a clipboard image that is present, the bridge still reports success,
with an empty `latex` field — the claim that the latex string is always
non-empty fails on the code, which passes the engine output through
unchecked. -/
theorem success_latex_may_be_empty_cex :
    (process_clipboard_image envEmptyLatex).1 = successResult "" ∧
    ((process_clipboard_image envEmptyLatex).1).lookup "success" =
      some (JsonVal.bool true) ∧
    ((process_clipboard_image envEmptyLatex).1).lookup "latex" =
      some (JsonVal.str "") :=
  ⟨rfl, rfl, rfl⟩

/-- C3 (amended): for every valid image (clipboard or file) and every
configuration, when engine construction and recognition succeed the
result object has `success` true and `latex` equal to the string the
engine returned; that string is non-empty exactly when the engine output
is non-empty. -/
theorem valid_image_yields_success_result (env : Env) (path : String)
    (img : Img) (p2t : Engine) (latex : String)
    (hclip : env.grabclipboard = Except.ok (some img))
    (hopen : env.imageOpen path = Except.ok img)
    (hctor : env.from_config ((load_config env).pix2text.getD []) =
      Except.ok p2t)
    (hrec : env.recognize_text_formula p2t img
      ((load_config env).text_formula_resized_shape.getD 608) true =
      Except.ok latex) :
    (process_clipboard_image env).1 = successResult latex ∧
    (process_image_file env path).1 = successResult latex ∧
    (successResult latex).lookup "success" = some (JsonVal.bool true) ∧
    (successResult latex).lookup "latex" = some (JsonVal.str latex) := by
  refine ⟨?_, ?_, ?_, ?_⟩
  · simp [process_clipboard_image, hclip, hctor, hrec]
  · simp [process_image_file, hopen, hctor, hrec]
  · simp [successResult, List.lookup]
  · simp [successResult, List.lookup]

theorem valid_image_yields_success_result_witness :
    envOk.grabclipboard = Except.ok (some 3) ∧
    envOk.imageOpen "formula.png" = Except.ok 3 ∧
    envOk.from_config ((load_config envOk).pix2text.getD []) =
      Except.ok 5 ∧
    envOk.recognize_text_formula 5 3
      ((load_config envOk).text_formula_resized_shape.getD 608) true =
      Except.ok "E=mc^2" ∧
    ((process_clipboard_image envOk).1 = successResult "E=mc^2" ∧
      (process_image_file envOk "formula.png").1 = successResult "E=mc^2" ∧
      (successResult "E=mc^2").lookup "success" =
        some (JsonVal.bool true) ∧
      (successResult "E=mc^2").lookup "latex" =
        some (JsonVal.str "E=mc^2")) :=
  ⟨rfl, rfl, rfl, rfl,
   valid_image_yields_success_result envOk "formula.png" 3 5 "E=mc^2"
     rfl rfl rfl rfl⟩

/-- C7 counterexample: a concrete successful run — its result object has
`success` true but no `confidence` field at all, refuting the claim that
every successful result carries a placeholder confidence score. -/
theorem success_result_lacks_confidence_cex :
    ((process_clipboard_image envOk).1).lookup "success" =
      some (JsonVal.bool true) ∧
    ((process_clipboard_image envOk).1).lookup "confidence" = none :=
  ⟨rfl, rfl⟩

/-- Every result the clipboard path can produce is either an error object
or a success object. -/
theorem process_clipboard_image_shape (env : Env) :
    (∃ m, (process_clipboard_image env).1 = errorResult m) ∨
    (∃ s, (process_clipboard_image env).1 = successResult s) := by
  unfold process_clipboard_image
  split
  · exact Or.inl ⟨_, rfl⟩
  · exact Or.inl ⟨_, rfl⟩
  · dsimp only
    split
    · exact Or.inl ⟨_, rfl⟩
    · split
      · exact Or.inl ⟨_, rfl⟩
      · exact Or.inr ⟨_, rfl⟩

/-- Every result the file path can produce is either an error object or a
success object. -/
theorem process_image_file_shape (env : Env) (path : String) :
    (∃ m, (process_image_file env path).1 = errorResult m) ∨
    (∃ s, (process_image_file env path).1 = successResult s) := by
  unfold process_image_file
  split
  · exact Or.inl ⟨_, rfl⟩
  · dsimp only
    split
    · exact Or.inl ⟨_, rfl⟩
    · split
      · exact Or.inl ⟨_, rfl⟩
      · exact Or.inr ⟨_, rfl⟩

/-- Every result `main` can print is either an error object or a success
object. -/
theorem main_printed_shape (env : Env) (argv : List String) (r : Result)
    (hr : r ∈ (main env argv).printed) :
    (∃ m, r = errorResult m) ∨ (∃ s, r = successResult s) := by
  match argv with
  | [] => exact Or.inl ⟨_, List.mem_singleton.mp hr⟩
  | [_] => exact Or.inl ⟨_, List.mem_singleton.mp hr⟩
  | _ :: command :: rest =>
      simp only [main] at hr
      rw [List.mem_singleton.mp hr]
      split
      · exact process_clipboard_image_shape env
      · split
        · exact process_image_file_shape env _
        · exact Or.inl ⟨_, rfl⟩

/-- C7 (amended): every result object printed by `main` has no
`confidence` field, and every successful one — any result whose `success`
field is true — consists exactly of the success flag and the recognized
LaTeX string. -/
theorem success_result_fields (env : Env) (argv : List String) (r : Result)
    (hr : r ∈ (main env argv).printed) :
    r.lookup "confidence" = none ∧
    (r.lookup "success" = some (JsonVal.bool true) →
      ∃ latex, r = successResult latex) := by
  rcases main_printed_shape env argv r hr with ⟨m, rfl⟩ | ⟨s, rfl⟩
  · exact ⟨rfl, by intro h; cases h⟩
  · exact ⟨rfl, fun _ => ⟨s, rfl⟩⟩

theorem success_result_fields_witness :
    successResult "E=mc^2" ∈
      (main envOk ["pix2text_bridge.py", "clipboard"]).printed ∧
    ((successResult "E=mc^2").lookup "confidence" = none ∧
      ((successResult "E=mc^2").lookup "success" =
          some (JsonVal.bool true) →
        ∃ latex, successResult "E=mc^2" = successResult latex)) :=
  ⟨List.mem_singleton.mpr rfl,
   success_result_fields envOk ["pix2text_bridge.py", "clipboard"]
     (successResult "E=mc^2") (List.mem_singleton.mpr rfl)⟩

/-- C8: on every successful recognition run (clipboard or file), exactly
two engine calls happen, in order: the engine is constructed from the
`pix2text` sub-mapping of the configuration, and its text/formula entry
point is called with the acquired image, the resized-shape value taken
from the configuration key `text_formula_resized_shape` (608 when the key
is absent), and the `return_text` flag set, i.e. plain-text LaTeX output
requested rather than structured output. -/
theorem engine_invocation_parameters (env : Env) (path : String)
    (img : Img) (p2t : Engine) (latex : String)
    (hclip : env.grabclipboard = Except.ok (some img))
    (hopen : env.imageOpen path = Except.ok img)
    (hctor : env.from_config ((load_config env).pix2text.getD []) =
      Except.ok p2t)
    (hrec : env.recognize_text_formula p2t img
      ((load_config env).text_formula_resized_shape.getD 608) true =
      Except.ok latex) :
    (process_clipboard_image env).2 =
      [EngineEvent.construct ((load_config env).pix2text.getD []),
       EngineEvent.recognize p2t img
         ((load_config env).text_formula_resized_shape.getD 608) true] ∧
    (process_image_file env path).2 =
      [EngineEvent.construct ((load_config env).pix2text.getD []),
       EngineEvent.recognize p2t img
         ((load_config env).text_formula_resized_shape.getD 608) true] := by
  constructor
  · simp [process_clipboard_image, hclip, hctor, hrec]
  · simp [process_image_file, hopen, hctor, hrec]

theorem engine_invocation_parameters_witness :
    envOk.grabclipboard = Except.ok (some 3) ∧
    envOk.imageOpen "formula.png" = Except.ok 3 ∧
    envOk.from_config ((load_config envOk).pix2text.getD []) =
      Except.ok 5 ∧
    envOk.recognize_text_formula 5 3
      ((load_config envOk).text_formula_resized_shape.getD 608) true =
      Except.ok "E=mc^2" ∧
    ((process_clipboard_image envOk).2 =
        [EngineEvent.construct [("model_backend", 1)],
         EngineEvent.recognize 5 3 768 true] ∧
      (process_image_file envOk "formula.png").2 =
        [EngineEvent.construct [("model_backend", 1)],
         EngineEvent.recognize 5 3 768 true]) :=
  ⟨rfl, rfl, rfl, rfl,
   engine_invocation_parameters envOk "formula.png" 3 5 "E=mc^2"
     rfl rfl rfl rfl⟩

end Pix2TextBridge
